import Mathlib

/-!
The `ScalarLike` concept of `matrix/concepts.hpp`.

The header defines one compile-time predicate,

    template<typename T>
    concept ScalarLike = std::is_arithmetic_v<T> || requires(T a, T b) {
        { a + b } -> std::convertible_to<T>;
        { a - b } -> std::convertible_to<T>;
        { a * b } -> std::convertible_to<T>;
        { a / b } -> std::convertible_to<T>;
        { -a } -> std::convertible_to<T>;
    };

A concept is a total boolean function of a type and of the declarations visible
in the translation unit.  The embedding therefore consists of

* the types the predicate is asked about: the (cv-qualified) arithmetic types
  of the language and the class / enumeration types a program declares;
* the language rules the five expressions fall under when both operands are
  arithmetic (integral promotion, usual arithmetic conversions), computed from
  the integer widths of the target;
* the static interface of the declared types (what overload resolution finds
  for an operator expression, which implicit conversions exist), given as a
  `Program`;
* `ScalarLike` itself, written clause by clause after the source;
* for units made of aggregate classes and non-member operator functions, the
  derivation of that static interface from the declarations by overload
  resolution (`frontEnd`), following [over.match.oper], [over.built],
  [over.best.ics], [over.ics.rank] and [over.match.best].
-/

namespace matrix

/-! ## Types -/

/-- The arithmetic types of C++20 ([basic.fundamental]): the integral types and
the floating-point types. -/
inductive Arith
  | bool
  | char
  | schar
  | uchar
  | wchar_t
  | char8_t
  | char16_t
  | char32_t
  | short
  | ushort
  | int
  | uint
  | long
  | ulong
  | llong
  | ullong
  | float
  | double
  | ldouble
  deriving DecidableEq, Repr

/-- Top-level cv-qualification of a type. -/
structure CvQual where
  isConst : Bool
  isVolatile : Bool
  deriving DecidableEq, Repr

/-- No cv-qualifier: the type of every prvalue of arithmetic type. -/
def CvQual.none : CvQual := ⟨false, false⟩

/-- The candidate types `T`: a possibly cv-qualified arithmetic type, or a class
or enumeration type declared by the program, identified by a number (a
cv-qualified variant of a declared type is a declared type of its own). -/
inductive CppType
  | arith (a : Arith) (cv : CvQual)
  | declared (id : Nat)
  deriving DecidableEq, Repr

/-- Integer widths and character-type choices of a target ([basic.fundamental],
implementation-defined). -/
structure Platform where
  charBits : Nat
  shortBits : Nat
  intBits : Nat
  longBits : Nat
  llongBits : Nat
  charSigned : Bool
  wcharUnderlying : Arith
  char16Underlying : Arith
  char32Underlying : Arith

/-- The four binary operators the concept uses. -/
inductive BinaryOperator
  | plus
  | minus
  | times
  | divide
  deriving DecidableEq, Repr

/-- Static interface of the declared types of a translation unit, as the
compiler front end sees it.  `binary op l r` is the type of `x op y` for lvalues
`x : l`, `y : r` when overload resolution succeeds and the expression is
well-formed, `negate t` the same for `-x`; `convertible src dst` tells whether
`std::convertible_to<src, dst>` holds.  The entries are consulted only when a
declared type is involved: an operator function needs a parameter of class or
enumeration type ([over.oper]), and conversions between arithmetic types are
fixed by the language. -/
structure Program where
  binary : BinaryOperator → CppType → CppType → Option CppType
  negate : CppType → Option CppType
  convertible : CppType → CppType → Bool

/-! ## Type traits of the standard library -/

/-- The trait `std::is_floating_point_v`. -/
def is_floating_point_v : CppType → Bool
  | .arith .float _ => true
  | .arith .double _ => true
  | .arith .ldouble _ => true
  | _ => false

/-- The trait `std::is_integral_v`: `bool`, the character types and the
standard integer types, cv-qualified or not. -/
def is_integral_v : CppType → Bool
  | .arith .float _ => false
  | .arith .double _ => false
  | .arith .ldouble _ => false
  | .arith _ _ => true
  | .declared _ => false

/-- The trait `std::is_arithmetic_v` ([meta.unary.comp]): integral or floating
point. -/
def is_arithmetic_v (T : CppType) : Bool :=
  is_integral_v T || is_floating_point_v T

/-! ## Built-in operators on arithmetic operands -/

/-- Whether an arithmetic type is a floating-point type. -/
def Arith.isFloating : Arith → Bool
  | .float => true
  | .double => true
  | .ldouble => true
  | _ => false

/-- The underlying type of `wchar_t`, `char8_t`, `char16_t`, `char32_t`; every
other type is its own. -/
def underlying (pl : Platform) : Arith → Arith
  | .wchar_t => pl.wcharUnderlying
  | .char8_t => .uchar
  | .char16_t => pl.char16Underlying
  | .char32_t => pl.char32Underlying
  | a => a

/-- Width in bits of `bool` and of the standard integer types. -/
def baseBits (pl : Platform) : Arith → Nat
  | .bool => 1
  | .char => pl.charBits
  | .schar => pl.charBits
  | .uchar => pl.charBits
  | .short => pl.shortBits
  | .ushort => pl.shortBits
  | .int => pl.intBits
  | .uint => pl.intBits
  | .long => pl.longBits
  | .ulong => pl.longBits
  | .llong => pl.llongBits
  | .ullong => pl.llongBits
  | _ => 0

/-- Signedness of the standard integer types. -/
def baseSigned (pl : Platform) : Arith → Bool
  | .char => pl.charSigned
  | .schar => true
  | .short => true
  | .int => true
  | .long => true
  | .llong => true
  | _ => false

/-- Integer conversion rank of `bool` and the standard integer types
([conv.rank]). -/
def baseRank : Arith → Nat
  | .bool => 0
  | .char => 1
  | .schar => 1
  | .uchar => 1
  | .short => 2
  | .ushort => 2
  | .int => 3
  | .uint => 3
  | .long => 4
  | .ulong => 4
  | .llong => 5
  | .ullong => 5
  | _ => 0

/-- Width of an integral type. -/
def bits (pl : Platform) (a : Arith) : Nat := baseBits pl (underlying pl a)

/-- Signedness of an integral type. -/
def isSigned (pl : Platform) (a : Arith) : Bool := baseSigned pl (underlying pl a)

/-- Conversion rank of an integral type; a character type has the rank of its
underlying type. -/
def rank (pl : Platform) (a : Arith) : Nat := baseRank (underlying pl a)

/-- Whether integral type `dst` can represent all the values of integral type
`src` (two-s complement, C++20). -/
def canRepresentAll (pl : Platform) (dst src : Arith) : Bool :=
  if isSigned pl dst then
    if isSigned pl src then decide (bits pl src ≤ bits pl dst)
    else decide (bits pl src < bits pl dst)
  else
    if isSigned pl src then false
    else decide (bits pl src ≤ bits pl dst)

/-- Integral promotion ([conv.prom]); types of rank `int` or more and
floating-point types are unchanged. -/
def integralPromotion (pl : Platform) (a : Arith) : Arith :=
  match a with
  | .bool => .int
  | .char | .schar | .uchar | .short | .ushort | .char8_t =>
    if canRepresentAll pl .int a then .int else .uint
  | .wchar_t | .char16_t | .char32_t =>
    match [Arith.int, .uint, .long, .ulong, .llong, .ullong].find?
        (fun t => canRepresentAll pl t a) with
    | some t => t
    | none => underlying pl a
  | _ => a

/-- The unsigned integer type corresponding to a signed integer type. -/
def toUnsigned : Arith → Arith
  | .char => .uchar
  | .schar => .uchar
  | .short => .ushort
  | .int => .uint
  | .long => .ulong
  | .llong => .ullong
  | a => a

/-- The usual arithmetic conversions ([expr.arith.conv]): the common type of two
arithmetic operands, which is the type of the result of `+ - * /`. -/
def usualArithmeticConversions (pl : Platform) (a b : Arith) : Arith :=
  if a = .ldouble ∨ b = .ldouble then .ldouble
  else if a = .double ∨ b = .double then .double
  else if a = .float ∨ b = .float then .float
  else
    let x := integralPromotion pl a
    let y := integralPromotion pl b
    if x = y then x
    else if isSigned pl x = isSigned pl y then
      if rank pl x < rank pl y then y else x
    else
      let u := if isSigned pl x then y else x
      let s := if isSigned pl x then x else y
      if rank pl s ≤ rank pl u then u
      else if canRepresentAll pl s u then s
      else toUnsigned s

/-! ## Typing the five expressions -/

/-- The type of `x op y` for lvalues `x : l`, `y : r`, or `none` when the
expression is ill-formed.  Two arithmetic operands select the built-in operator,
whose result is a prvalue of the common type ([over.match.oper], [expr.mul],
[expr.add]); otherwise the program decides. -/
def binaryExprType (pl : Platform) (P : Program) (op : BinaryOperator)
    (l r : CppType) : Option CppType :=
  match l, r with
  | .arith a _, .arith b _ => some (.arith (usualArithmeticConversions pl a b) CvQual.none)
  | _, _ => P.binary op l r

/-- The type of `-x` for an lvalue `x : t` ([expr.unary.op]): the promoted type
for an arithmetic operand, otherwise what the program declares. -/
def negateExprType (pl : Platform) (P : Program) (t : CppType) : Option CppType :=
  match t with
  | .arith a _ =>
    some (.arith (if a.isFloating then a else integralPromotion pl a) CvQual.none)
  | _ => P.negate t

/-- The concept `std::convertible_to<src, dst>`: any arithmetic type converts
implicitly and by `static_cast` to any other ([conv.integral], [conv.double],
[conv.fpint], [conv.bool]); otherwise the program decides. -/
def convertible_to (P : Program) (src dst : CppType) : Bool :=
  match src, dst with
  | .arith _ _, .arith _ _ => true
  | _, _ => P.convertible src dst

/-- A compound requirement `{ e } -> std::convertible_to<T>`: the expression is
well-formed and its type satisfies the type-constraint. -/
def compoundRequirement (P : Program) (e : Option CppType) (T : CppType) : Bool :=
  match e with
  | some r => convertible_to P r T
  | none => false

/-! ## The concept -/

/-- The requires-expression of the concept, `requires(T a, T b)` with its five
compound requirements in source order. -/
def requiresExpression (pl : Platform) (P : Program) (T : CppType) : Bool :=
  compoundRequirement P (binaryExprType pl P .plus T T) T &&
  compoundRequirement P (binaryExprType pl P .minus T T) T &&
  compoundRequirement P (binaryExprType pl P .times T T) T &&
  compoundRequirement P (binaryExprType pl P .divide T T) T &&
  compoundRequirement P (negateExprType pl P T) T

/-- The concept `matrix::ScalarLike<T>`: the disjunction of the arithmetic-type
test and the requires-expression, evaluated left to right. -/
def ScalarLike (pl : Platform) (P : Program) (T : CppType) : Bool :=
  is_arithmetic_v T || requiresExpression pl P T

/-! ## Targets and translation units used as concrete inputs -/

/-- A 64-bit hosted target: 8/16/32/64/64-bit integers, signed `char`,
`wchar_t` as `int`. -/
def lp64 : Platform :=
  ⟨8, 16, 32, 64, 64, true, .int, .ushort, .uint⟩

/-- A 32-bit microcontroller target: 8/16/32/32/64-bit integers, unsigned
`char`, `wchar_t` as `unsigned int`. -/
def ilp32 : Platform :=
  ⟨8, 16, 32, 32, 64, false, .uint, .ushort, .ulong⟩

/-- The type `int` without qualifiers. -/
def intType : CppType := .arith .int CvQual.none

/-- The type `double` without qualifiers. -/
def doubleType : CppType := .arith .double CvQual.none

/-- A translation unit that declares `struct Dual { double value, derivative; }`
as type 0, with `Dual operator+(Dual, Dual)`, `operator-`, `operator*`,
`operator/` and unary `Dual operator-(Dual)`, and nothing else. -/
def dualProgram : Program where
  binary := fun _ l r =>
    if l = .declared 0 ∧ r = .declared 0 then some (.declared 0) else none
  negate := fun t => if t = .declared 0 then some (.declared 0) else none
  convertible := fun src dst => decide (src = dst)

/-- A translation unit in which the operators on type 0 return an expression
node, type 1, that converts implicitly to type 0. -/
def proxyProgram : Program where
  binary := fun _ l r =>
    if l = .declared 0 ∧ r = .declared 0 then some (.declared 1) else none
  negate := fun t => if t = .declared 0 then some (.declared 1) else none
  convertible := fun src dst => decide (src = dst) || decide (src = .declared 1 ∧ dst = .declared 0)

/-- A translation unit whose type 0 has `+`, `-`, `*` and unary `-` returning
type 0, and no `/`. -/
def noDivideProgram : Program where
  binary := fun op l r =>
    if op ≠ .divide ∧ l = .declared 0 ∧ r = .declared 0 then some (.declared 0) else none
  negate := fun t => if t = .declared 0 then some (.declared 0) else none
  convertible := fun src dst => decide (src = dst)

/-- A translation unit that declares only a plain aggregate, type 0, without any
operator. -/
def aggregateProgram : Program where
  binary := fun _ _ _ => none
  negate := fun _ => none
  convertible := fun src dst => decide (src = dst)

/-- A translation unit in which the operators on type 0 return type 1, which
does not convert to type 0. -/
def unrelatedResultProgram : Program where
  binary := fun _ l r =>
    if l = .declared 0 ∧ r = .declared 0 then some (.declared 1) else none
  negate := fun t => if t = .declared 0 then some (.declared 1) else none
  convertible := fun src dst => decide (src = dst)

/-! ## Declarations of a translation unit and overload resolution -/

/-- How an operator function takes an operand of class type: `C`, `const C&` or
`C&`. -/
inductive ClassParamKind
  | byValue
  | constRef
  | ref
  deriving DecidableEq, Repr

/-- Parameter type of a declared operator function: a class type, taken by value
or by lvalue reference, or an arithmetic type taken by value. -/
inductive Param
  | cls (k : ClassParamKind) (id : Nat)
  | arith (a : Arith)
  deriving DecidableEq, Repr

/-- The type of a parameter, reference and cv-qualification removed. -/
def Param.type : Param → CppType
  | .cls _ id => .declared id
  | .arith a => .arith a CvQual.none

/-- A class of the unit: a copyable aggregate `struct C` without constructors,
bases or member operators, and with at most one conversion function
`operator Y() const` to an arithmetic type `Y`. -/
structure ClassDecl where
  id : Nat
  conversion : Option Arith
  deriving DecidableEq, Repr

/-- A non-member, non-template operator function
`ret operator op(lhs, rhs);`. -/
structure BinaryDecl where
  op : BinaryOperator
  lhs : Param
  rhs : Param
  ret : CppType
  deriving DecidableEq, Repr

/-- A non-member, non-template operator function `ret operator-(param);`. -/
structure NegateDecl where
  param : Param
  ret : CppType
  deriving DecidableEq, Repr

/-- The declarations of a translation unit that bear on operator expressions:
its classes (the type `.declared id` is the class `id`, without cv-qualifier; an
id that is not listed is a class without conversion function), its binary
operator functions and its unary minus functions. -/
structure TranslationUnit where
  classes : List ClassDecl
  binary : List BinaryDecl
  negate : List NegateDecl
  deriving DecidableEq, Repr

/-- Whether a type is a class type of the unit. -/
def CppType.isDeclared : CppType → Bool
  | .declared _ => true
  | .arith _ _ => false

/-- An operator declaration is mixed-type when its two parameters have
different types, as in `T operator*(T, double)`. -/
def BinaryDecl.isMixed (d : BinaryDecl) : Bool :=
  decide (d.lhs.type ≠ d.rhs.type)

/-- The target of the conversion function of class `c`, if it has one. -/
def conversionFunction (classes : List ClassDecl) (c : Nat) : Option Arith :=
  (classes.find? (fun k => k.id == c)).bind (fun k => k.conversion)

/-- Implicit conversion sequences ([over.best.ics]).  A standard conversion
sequence has a rank (0 exact match, 1 promotion, 2 conversion) and, when it binds
a reference to a class object, records whether the referenced type is
`const`; a user-defined conversion sequence goes through the conversion function
of the class and ends in a standard conversion of the given rank. -/
inductive ConversionSequence
  | standard (rank : Nat) (binding : Option Bool)
  | userDefined (rank : Nat)
  deriving DecidableEq, Repr

/-- Rank of the standard conversion from arithmetic type `src` to arithmetic
type `dst` ([over.ics.scs]): identity, promotion ([conv.prom], [conv.fpprom]) or
conversion. -/
def arithRank (pl : Platform) (src dst : Arith) : Nat :=
  if src = dst then 0
  else if integralPromotion pl src = dst ∨ (src = .float ∧ dst = .double) then 1
  else 2

/-- The implicit conversion sequence from an lvalue argument of type `arg` to a
parameter, or `none` when there is no conversion. -/
def implicitConversion (pl : Platform) (classes : List ClassDecl) (arg : CppType)
    (p : Param) : Option ConversionSequence :=
  match arg, p with
  | .arith a _, .arith x => some (.standard (arithRank pl a x) none)
  | .arith _ _, .cls _ _ => none
  | .declared c, .cls k d =>
    if c = d then
      match k with
      | .byValue => some (.standard 0 none)
      | .constRef => some (.standard 0 (some true))
      | .ref => some (.standard 0 (some false))
    else none
  | .declared c, .arith x =>
    match conversionFunction classes c with
    | some y => some (.userDefined (arithRank pl y x))
    | none => none

/-- Whether conversion sequence `s` is better than `t` ([over.ics.rank]): a
standard sequence beats a user-defined one; standard sequences compare by rank,
and at equal rank a reference binding to a less cv-qualified type wins;
user-defined sequences through the same conversion function compare by their
second standard conversion. -/
def ConversionSequence.better : ConversionSequence → ConversionSequence → Bool
  | .standard r₁ b₁, .standard r₂ b₂ =>
    decide (r₁ < r₂) || (decide (r₁ = r₂) && decide (b₁ = some false) && decide (b₂ = some true))
  | .standard _ _, .userDefined _ => true
  | .userDefined _, .standard _ _ => false
  | .userDefined r₁, .userDefined r₂ => decide (r₁ < r₂)

/-- A viable candidate of an operator expression: its parameter-type-list, the
conversion sequence of each argument, and the type of the call. -/
structure Candidate where
  params : List Param
  conversions : List ConversionSequence
  result : CppType
  deriving DecidableEq, Repr

/-- Candidate `f` is a better function than `g` ([over.match.best]): no argument
converts worse, and some argument converts better. -/
def Candidate.better (f g : Candidate) : Bool :=
  (List.zipWith (fun s t => !ConversionSequence.better t s) f.conversions g.conversions).all id &&
  (List.zipWith ConversionSequence.better f.conversions g.conversions).any id

/-- Overload resolution: the type of the call when one viable candidate is
better than every other one, `none` when there is no viable candidate or the
call is ambiguous.  Two entries with the same parameter-type-list declare the
same function. -/
def bestViable (cs : List Candidate) : Option CppType :=
  (cs.find? (fun f => cs.all (fun g => g.params == f.params || f.better g))).map
    (fun f => f.result)

/-- The type of a call expression: a prvalue of non-class type has no
cv-qualifier ([expr.type]). -/
def callType : CppType → CppType
  | .arith a _ => .arith a CvQual.none
  | t => t

/-- The promoted arithmetic types ([over.built]). -/
def promotedArithmetic : List Arith :=
  [.int, .uint, .long, .ulong, .llong, .ullong, .float, .double, .ldouble]

/-- The candidate a declared binary operator function contributes to `x op y`
for lvalues `x : l`, `y : r`: the function must be named `op`, have a parameter
of class type ([over.oper]) and be viable. -/
def BinaryDecl.candidate (pl : Platform) (classes : List ClassDecl) (op : BinaryOperator)
    (l r : CppType) (d : BinaryDecl) : Option Candidate :=
  if d.op = op ∧ (d.lhs.type.isDeclared ∨ d.rhs.type.isDeclared) then
    match implicitConversion pl classes l d.lhs, implicitConversion pl classes r d.rhs with
    | some s, some t => some ⟨[d.lhs, d.rhs], [s, t], callType d.ret⟩
    | _, _ => none
  else none

/-- Whether a declared binary operator function accepts operands of types `l`
and `r`, that is, both have an implicit conversion to its parameters. -/
def BinaryDecl.viableFor (pl : Platform) (classes : List ClassDecl) (l r : CppType)
    (d : BinaryDecl) : Bool :=
  (implicitConversion pl classes l d.lhs).isSome && (implicitConversion pl classes r d.rhs).isSome

/-- The built-in candidates of a binary operator ([over.built]): for every pair
of promoted arithmetic types `L`, `R` a function `LR operator op(L, R)`, where
`LR` is the result of the usual arithmetic conversions; kept when viable. -/
def builtinBinaryCandidates (pl : Platform) (classes : List ClassDecl) (l r : CppType) :
    List Candidate :=
  (promotedArithmetic.flatMap (fun L => promotedArithmetic.map (fun R => (L, R)))).filterMap
    (fun LR =>
      match implicitConversion pl classes l (.arith LR.1),
          implicitConversion pl classes r (.arith LR.2) with
      | some s, some t =>
        some ⟨[.arith LR.1, .arith LR.2], [s, t],
          .arith (usualArithmeticConversions pl LR.1 LR.2) CvQual.none⟩
      | _, _ => none)

/-- The viable candidates of `x op y` for lvalues `x : l`, `y : r`
([over.match.oper]): the declared operator functions, then the built-in ones. -/
def binaryCandidates (pl : Platform) (D : TranslationUnit) (op : BinaryOperator)
    (l r : CppType) : List Candidate :=
  D.binary.filterMap (BinaryDecl.candidate pl D.classes op l r) ++
    builtinBinaryCandidates pl D.classes l r

/-- The candidate a declared unary `operator-` contributes to `-x` for an lvalue
`x : t`. -/
def NegateDecl.candidate (pl : Platform) (classes : List ClassDecl) (t : CppType)
    (d : NegateDecl) : Option Candidate :=
  if d.param.type.isDeclared then
    match implicitConversion pl classes t d.param with
    | some s => some ⟨[d.param], [s], callType d.ret⟩
    | none => none
  else none

/-- The built-in candidates of unary minus ([over.built]): `L operator-(L)` for
every promoted arithmetic type `L`; kept when viable. -/
def builtinNegateCandidates (pl : Platform) (classes : List ClassDecl) (t : CppType) :
    List Candidate :=
  promotedArithmetic.filterMap (fun L =>
    match implicitConversion pl classes t (.arith L) with
    | some s => some ⟨[.arith L], [s], .arith L CvQual.none⟩
    | none => none)

/-- The viable candidates of `-x` for an lvalue `x : t`. -/
def negateCandidates (pl : Platform) (D : TranslationUnit) (t : CppType) : List Candidate :=
  D.negate.filterMap (NegateDecl.candidate pl D.classes t) ++
    builtinNegateCandidates pl D.classes t

/-- The static interface a compiler front end derives from the declarations of a
unit, as the standard defines it: operator expressions by overload resolution
(an ambiguous call is ill-formed), `std::convertible_to` from
the copy constructor of a class (a class converts to itself) and from its
conversion function (a class that has one converts to every arithmetic type);
no arithmetic type converts to a class, the classes having no constructor. -/
def frontEnd (pl : Platform) (D : TranslationUnit) : Program where
  binary := fun op l r => bestViable (binaryCandidates pl D op l r)
  negate := fun t => bestViable (negateCandidates pl D t)
  convertible := fun src dst =>
    match src, dst with
    | .arith _ _, .arith _ _ => true
    | .arith _ _, .declared _ => false
    | .declared c, .declared d => decide (c = d)
    | .declared c, .arith _ _ => (conversionFunction D.classes c).isSome

/-- The five same-type operator functions of class `c`, each taking
`const C&` and returning `C`. -/
def closedOperators (c : Nat) : List BinaryDecl :=
  [⟨.plus, .cls .constRef c, .cls .constRef c, .declared c⟩,
   ⟨.minus, .cls .constRef c, .cls .constRef c, .declared c⟩,
   ⟨.times, .cls .constRef c, .cls .constRef c, .declared c⟩,
   ⟨.divide, .cls .constRef c, .cls .constRef c, .declared c⟩]

/-- The unit
`struct Dual { double value, derivative; };` with
`Dual operator+(const Dual&, const Dual&);` and the same for `- * /`, and
`Dual operator-(const Dual&);`. -/
def dualUnit : TranslationUnit where
  classes := [⟨0, none⟩]
  binary := closedOperators 0
  negate := [⟨.cls .constRef 0, .declared 0⟩]

/-- The unit `dualUnit` with the mixed-type operator functions
`Dual operator*(const Dual&, double);` and `Dual operator*(double, const Dual&);`
added. -/
def dualMixedUnit : TranslationUnit where
  classes := dualUnit.classes
  binary := dualUnit.binary ++
    [⟨.times, .cls .constRef 0, .arith .double, .declared 0⟩,
     ⟨.times, .arith .double, .cls .constRef 0, .declared 0⟩]
  negate := dualUnit.negate

/-- The unit
`struct C { double v; operator double() const; };` with
`C operator+(const C&, const C&);` and the same for `- * /`, and
`C operator-(const C&);`. -/
def convertingUnit : TranslationUnit where
  classes := [⟨0, some .double⟩]
  binary := closedOperators 0
  negate := [⟨.cls .constRef 0, .declared 0⟩]

/-- The unit `convertingUnit` with the mixed-type operator function
`C operator+(C&, double);` added. -/
def convertingMixedUnit : TranslationUnit where
  classes := convertingUnit.classes
  binary := convertingUnit.binary ++ [⟨.plus, .cls .ref 0, .arith .double, .declared 0⟩]
  negate := convertingUnit.negate

/-! ## Vocabulary of the statements -/

/-- An expression is well-formed and the type of its result converts to `T`. -/
def WellFormedConvertible (P : Program) (e : Option CppType) (T : CppType) : Prop :=
  ∃ r, e = some r ∧ convertible_to P r T = true

/-- All five expressions `a + b`, `a - b`, `a * b`, `a / b`, `-a` on operands of
type `T` are well-formed with a result convertible to `T`. -/
def ClosedArithmetic (pl : Platform) (P : Program) (T : CppType) : Prop :=
  WellFormedConvertible P (binaryExprType pl P .plus T T) T ∧
  WellFormedConvertible P (binaryExprType pl P .minus T T) T ∧
  WellFormedConvertible P (binaryExprType pl P .times T T) T ∧
  WellFormedConvertible P (binaryExprType pl P .divide T T) T ∧
  WellFormedConvertible P (negateExprType pl P T) T

/-- What a compound requirement observes of an expression: whether it is
well-formed and, when it is, whether its result converts to `T`. -/
def requirementFacts (P : Program) (e : Option CppType) (T : CppType) : Option Bool :=
  e.map (fun r => convertible_to P r T)

/-- The two tests of the concept taken in the other order: the five-operator
test first, the arithmetic-type test second. -/
def ScalarLikeStructuralFirst (pl : Platform) (P : Program) (T : CppType) : Bool :=
  requiresExpression pl P T || is_arithmetic_v T

/-! ## Lemmas -/

theorem compoundRequirement_iff (P : Program) (e : Option CppType) (T : CppType) :
    compoundRequirement P e T = true ↔ WellFormedConvertible P e T := by
  cases e with
  | none => simp [compoundRequirement, WellFormedConvertible]
  | some r => simp [compoundRequirement, WellFormedConvertible]

theorem requiresExpression_iff (pl : Platform) (P : Program) (T : CppType) :
    requiresExpression pl P T = true ↔ ClosedArithmetic pl P T := by
  simp only [requiresExpression, ClosedArithmetic, Bool.and_eq_true, compoundRequirement_iff,
    and_assoc]

theorem compoundRequirement_eq_facts (P : Program) (e : Option CppType) (T : CppType) :
    compoundRequirement P e T = ((requirementFacts P e T).getD false) := by
  cases e <;> rfl

theorem is_arithmetic_v_iff (T : CppType) :
    is_arithmetic_v T = true ↔ ∃ a cv, T = .arith a cv := by
  constructor
  · intro h
    cases T with
    | arith a cv => exact ⟨a, cv, rfl⟩
    | declared n => simp [is_arithmetic_v, is_integral_v, is_floating_point_v] at h
  · rintro ⟨a, cv, rfl⟩
    cases a <;> rfl

theorem requiresExpression_arith (pl : Platform) (P : Program) (a : Arith) (cv : CvQual) :
    requiresExpression pl P (.arith a cv) = true := by
  simp [requiresExpression, compoundRequirement, binaryExprType, negateExprType, convertible_to]

theorem requiresExpression_of_is_arithmetic (pl : Platform) (P : Program) (T : CppType)
    (h : is_arithmetic_v T = true) : requiresExpression pl P T = true := by
  obtain ⟨a, cv, rfl⟩ := (is_arithmetic_v_iff T).mp h
  exact requiresExpression_arith pl P a cv

theorem filterMap_filter_of_none {α β : Type} (f : α → Option β) (p : α → Bool) (l : List α)
    (h : ∀ x ∈ l, p x = false → f x = none) :
    l.filterMap f = (l.filter p).filterMap f := by
  induction l with
  | nil => rfl
  | cons x xs ih =>
    have ih := ih (fun y hy => h y (List.mem_cons_of_mem x hy))
    cases hp : p x
    · have hx := h x (List.mem_cons_self x xs) hp
      rw [List.filter_cons_of_neg (by simp [hp]), List.filterMap_cons_none hx, ih]
    · rw [List.filter_cons_of_pos hp]
      cases hf : f x
      · rw [List.filterMap_cons_none hf, List.filterMap_cons_none hf, ih]
      · rw [List.filterMap_cons_some hf, List.filterMap_cons_some hf, ih]

theorem candidate_eq_none_of_not_viable (pl : Platform) (classes : List ClassDecl)
    (op : BinaryOperator) (l r : CppType) (d : BinaryDecl)
    (h : d.viableFor pl classes l r = false) : d.candidate pl classes op l r = none := by
  unfold BinaryDecl.viableFor at h
  unfold BinaryDecl.candidate
  split
  · cases h₁ : implicitConversion pl classes l d.lhs <;>
      cases h₂ : implicitConversion pl classes r d.rhs <;> simp_all
  · rfl

theorem binaryCandidates_eq_of_same_type_part (pl : Platform) (D D' : TranslationUnit)
    (op : BinaryOperator) (l r : CppType)
    (hc : D.classes = D'.classes)
    (hb : D.binary.filter (fun d => !d.isMixed) = D'.binary.filter (fun d => !d.isMixed))
    (hv : ∀ d ∈ D.binary ++ D'.binary, d.isMixed = true → d.viableFor pl D.classes l r = false) :
    binaryCandidates pl D op l r = binaryCandidates pl D' op l r := by
  unfold binaryCandidates
  rw [filterMap_filter_of_none (BinaryDecl.candidate pl D.classes op l r)
      (fun d => !d.isMixed) D.binary,
    filterMap_filter_of_none (BinaryDecl.candidate pl D'.classes op l r)
      (fun d => !d.isMixed) D'.binary, hb, hc]
  · intro d hd hm
    rw [← hc]
    exact candidate_eq_none_of_not_viable pl _ op l r d
      (hv d (List.mem_append_right _ hd) (by simpa using hm))
  · intro d hd hm
    exact candidate_eq_none_of_not_viable pl _ op l r d
      (hv d (List.mem_append_left _ hd) (by simpa using hm))

theorem ScalarLike_frontEnd_congr (pl : Platform) (D D' : TranslationUnit) (T : CppType)
    (hc : D.classes = D'.classes) (hn : D.negate = D'.negate)
    (hb : ∀ op, binaryCandidates pl D op T T = binaryCandidates pl D' op T T) :
    ScalarLike pl (frontEnd pl D) T = ScalarLike pl (frontEnd pl D') T := by
  have hneg : negateCandidates pl D T = negateCandidates pl D' T := by
    unfold negateCandidates
    rw [hc, hn]
  cases T with
  | arith a cv => simp [ScalarLike, (is_arithmetic_v_iff (.arith a cv)).mpr ⟨a, cv, rfl⟩]
  | declared n =>
    simp only [ScalarLike, requiresExpression, binaryExprType, negateExprType,
      compoundRequirement, convertible_to, frontEnd, hb, hneg, hc]

theorem bestViable_of_no_candidate (pl : Platform) (D : TranslationUnit)
    (op : BinaryOperator) (l r : CppType)
    (hu : ∀ d ∈ D.binary, d.viableFor pl D.classes l r = false)
    (hb : builtinBinaryCandidates pl D.classes l r = []) :
    bestViable (binaryCandidates pl D op l r) = none := by
  have h : D.binary.filterMap (BinaryDecl.candidate pl D.classes op l r) = [] := by
    rw [List.filterMap_eq_nil_iff]
    intro d hd
    exact candidate_eq_none_of_not_viable pl _ op l r d (hu d hd)
  simp [binaryCandidates, h, hb, bestViable]

theorem dualUnit_conversionFunction (m : Nat) :
    conversionFunction dualUnit.classes m = none := by
  by_cases hm : m = 0
  · subst hm
    rfl
  · have h0 : (0 == m) = false := by
      rw [beq_eq_false_iff_ne]
      exact fun h => hm h.symm
    simp [conversionFunction, dualUnit, List.find?, h0]

theorem dualUnit_no_mixed_expression (pl : Platform) (op : BinaryOperator) (U : CppType)
    (hU : U ≠ .declared 0) :
    binaryExprType pl (frontEnd pl dualUnit) op (.declared 0) U = none ∧
      binaryExprType pl (frontEnd pl dualUnit) op U (.declared 0) = none := by
  have har : ∀ t x, implicitConversion pl dualUnit.classes t (.cls x 0) = none ∨
      t = .declared 0 := by
    intro t x
    cases t with
    | arith a cv => exact Or.inl rfl
    | declared n =>
      by_cases hn : n = 0
      · exact Or.inr (by rw [hn])
      · exact Or.inl (by simp [implicitConversion, hn])
  have hcls : ∀ k, implicitConversion pl dualUnit.classes U (.cls k 0) = none := by
    intro k
    rcases har U k with h | h
    · exact h
    · exact absurd h hU
  have hbl : ∀ r, builtinBinaryCandidates pl dualUnit.classes (.declared 0) r = [] := by
    intro r
    unfold builtinBinaryCandidates
    rw [List.filterMap_eq_nil_iff]
    intro LR _
    simp [implicitConversion, dualUnit_conversionFunction]
  have hbr : ∀ l, builtinBinaryCandidates pl dualUnit.classes l (.declared 0) = [] := by
    intro l
    unfold builtinBinaryCandidates
    rw [List.filterMap_eq_nil_iff]
    intro LR _
    cases implicitConversion pl dualUnit.classes l (Param.arith LR.1) <;>
      simp [implicitConversion, dualUnit_conversionFunction]
  have hmem : ∀ d ∈ dualUnit.binary, d.lhs = .cls .constRef 0 ∧ d.rhs = .cls .constRef 0 := by
    intro d hd
    simp only [dualUnit, closedOperators, List.mem_cons, List.mem_singleton,
      List.not_mem_nil, or_false] at hd
    rcases hd with rfl | rfl | rfl | rfl <;> exact ⟨rfl, rfl⟩
  constructor
  · have hty : binaryExprType pl (frontEnd pl dualUnit) op (.declared 0) U
        = bestViable (binaryCandidates pl dualUnit op (.declared 0) U) := by
      cases U <;> rfl
    rw [hty]
    refine bestViable_of_no_candidate pl dualUnit op _ _ ?_ (hbl U)
    intro d hd
    simp [BinaryDecl.viableFor, (hmem d hd).2, hcls]
  · have hty : binaryExprType pl (frontEnd pl dualUnit) op U (.declared 0)
        = bestViable (binaryCandidates pl dualUnit op U (.declared 0)) := by
      cases U <;> rfl
    rw [hty]
    refine bestViable_of_no_candidate pl dualUnit op _ _ ?_ (hbr U)
    intro d hd
    simp [BinaryDecl.viableFor, (hmem d hd).1, hcls]

theorem dualMixedUnit_mixed_not_viable (pl : Platform) (U : CppType) (d : BinaryDecl)
    (hd : d ∈ dualMixedUnit.binary ++ dualUnit.binary) (hm : d.isMixed = true) :
    d.viableFor pl dualMixedUnit.classes U U = false := by
  have hcf : conversionFunction dualMixedUnit.classes = conversionFunction dualUnit.classes := rfl
  simp only [dualMixedUnit, dualUnit, closedOperators, List.mem_append, List.mem_cons,
    List.mem_singleton, List.not_mem_nil, or_false] at hd
  rcases hd with (((rfl | rfl | rfl | rfl) | (rfl | rfl)) | (rfl | rfl | rfl | rfl)) <;>
    first
    | exact absurd hm (by decide)
    | (cases U <;>
        simp [BinaryDecl.viableFor, implicitConversion, hcf, dualUnit_conversionFunction])

/-! ## Properties of the concept -/

/-- C1: `ScalarLike<T>` holds if and only if `T` is an arithmetic type or all five
expressions `a + b`, `a - b`, `a * b`, `a / b`, `-a` are well-formed, each with a
result convertible to `T`. -/
theorem ScalarLike_iff (pl : Platform) (P : Program) (T : CppType) :
    ScalarLike pl P T = true ↔
      (is_arithmetic_v T = true ∨
        ((∃ r, binaryExprType pl P .plus T T = some r ∧ convertible_to P r T = true) ∧
         (∃ r, binaryExprType pl P .minus T T = some r ∧ convertible_to P r T = true) ∧
         (∃ r, binaryExprType pl P .times T T = some r ∧ convertible_to P r T = true) ∧
         (∃ r, binaryExprType pl P .divide T T = some r ∧ convertible_to P r T = true) ∧
         (∃ r, negateExprType pl P T = some r ∧ convertible_to P r T = true))) := by
  rw [ScalarLike, Bool.or_eq_true, requiresExpression_iff]
  rfl

/-- C2: for every built-in integer type and every built-in floating-point type,
qualified or not, `ScalarLike<T>` holds on every target and in every program,
whatever the program declares about operators and conversions. -/
theorem ScalarLike_of_builtin (pl : Platform) (P : Program) (T : CppType)
    (h : is_integral_v T = true ∨ is_floating_point_v T = true) :
    ScalarLike pl P T = true := by
  have ha : is_arithmetic_v T = true := by
    rcases h with h | h <;> simp [is_arithmetic_v, h]
  simp [ScalarLike, ha]

/-- Witness of C2 at `int` (32 bits wide on `lp64`) and at `double`, in a
program that declares no operator at all. -/
theorem ScalarLike_of_builtin_witness :
    (is_integral_v intType = true ∨ is_floating_point_v intType = true) ∧
      bits lp64 .int = 32 ∧
      ScalarLike lp64 aggregateProgram intType = true ∧
      ScalarLike ilp32 aggregateProgram doubleType = true :=
  ⟨Or.inl rfl, rfl, ScalarLike_of_builtin lp64 aggregateProgram intType (Or.inl rfl),
    ScalarLike_of_builtin ilp32 aggregateProgram doubleType (Or.inr rfl)⟩

/-- C3: a type whose five expressions `a + b`, `a - b`, `a * b`, `a / b`, `-a`
are well-formed with result types `r₁ … r₅` convertible to `T` satisfies
`ScalarLike<T>`; the result types are arbitrary, they need not be `T`. -/
theorem ScalarLike_of_closed_operators (pl : Platform) (P : Program) (T : CppType)
    (r₁ r₂ r₃ r₄ r₅ : CppType)
    (h₁ : binaryExprType pl P .plus T T = some r₁) (c₁ : convertible_to P r₁ T = true)
    (h₂ : binaryExprType pl P .minus T T = some r₂) (c₂ : convertible_to P r₂ T = true)
    (h₃ : binaryExprType pl P .times T T = some r₃) (c₃ : convertible_to P r₃ T = true)
    (h₄ : binaryExprType pl P .divide T T = some r₄) (c₄ : convertible_to P r₄ T = true)
    (h₅ : negateExprType pl P T = some r₅) (c₅ : convertible_to P r₅ T = true) :
    ScalarLike pl P T = true := by
  have hreq : requiresExpression pl P T = true :=
    (requiresExpression_iff pl P T).mpr
      ⟨⟨r₁, h₁, c₁⟩, ⟨r₂, h₂, c₂⟩, ⟨r₃, h₃, c₃⟩, ⟨r₄, h₄, c₄⟩, ⟨r₅, h₅, c₅⟩⟩
  simp [ScalarLike, hreq]

/-- Witness of C3: the dual-number type, whose operators return the type itself,
and a non-arithmetic type whose operators return another type that converts to
it. -/
theorem ScalarLike_of_closed_operators_witness :
    is_arithmetic_v (.declared 0) = false ∧
      ScalarLike lp64 dualProgram (.declared 0) = true ∧
      binaryExprType lp64 proxyProgram .plus (.declared 0) (.declared 0) = some (.declared 1) ∧
      ScalarLike lp64 proxyProgram (.declared 0) = true :=
  ⟨rfl,
    ScalarLike_of_closed_operators lp64 dualProgram (.declared 0)
      (.declared 0) (.declared 0) (.declared 0) (.declared 0) (.declared 0)
      rfl rfl rfl rfl rfl rfl rfl rfl rfl rfl,
    rfl,
    ScalarLike_of_closed_operators lp64 proxyProgram (.declared 0)
      (.declared 1) (.declared 1) (.declared 1) (.declared 1) (.declared 1)
      rfl rfl rfl rfl rfl rfl rfl rfl rfl rfl⟩

/-- C4: a non-arithmetic type for which at least one of the five expressions
`a + b`, `a - b`, `a * b`, `a / b`, `-a` is ill-formed does not satisfy
`ScalarLike<T>`. -/
theorem not_ScalarLike_of_missing_operator (pl : Platform) (P : Program) (T : CppType)
    (hna : is_arithmetic_v T = false)
    (h : binaryExprType pl P .plus T T = none ∨ binaryExprType pl P .minus T T = none ∨
      binaryExprType pl P .times T T = none ∨ binaryExprType pl P .divide T T = none ∨
      negateExprType pl P T = none) :
    ScalarLike pl P T = false := by
  have hreq : requiresExpression pl P T = false := by
    rcases h with h | h | h | h | h <;> simp [requiresExpression, h, compoundRequirement]
  simp [ScalarLike, hna, hreq]

/-- Witness of C4: a type with `+`, `-`, `*`, unary `-` and no `/`, and a plain
aggregate without operators. -/
theorem not_ScalarLike_of_missing_operator_witness :
    binaryExprType lp64 noDivideProgram .plus (.declared 0) (.declared 0) = some (.declared 0) ∧
      binaryExprType lp64 noDivideProgram .divide (.declared 0) (.declared 0) = none ∧
      ScalarLike lp64 noDivideProgram (.declared 0) = false ∧
      ScalarLike lp64 aggregateProgram (.declared 0) = false :=
  ⟨rfl, rfl,
    not_ScalarLike_of_missing_operator lp64 noDivideProgram (.declared 0) rfl
      (Or.inr (Or.inr (Or.inr (Or.inl rfl)))),
    not_ScalarLike_of_missing_operator lp64 aggregateProgram (.declared 0) rfl (Or.inl rfl)⟩

/-- C5: a type one of whose five expressions has a result type that is not
convertible to `T` does not satisfy `ScalarLike<T>`. -/
theorem not_ScalarLike_of_unconvertible_result (pl : Platform) (P : Program)
    (T r : CppType)
    (h : binaryExprType pl P .plus T T = some r ∨ binaryExprType pl P .minus T T = some r ∨
      binaryExprType pl P .times T T = some r ∨ binaryExprType pl P .divide T T = some r ∨
      negateExprType pl P T = some r)
    (hr : convertible_to P r T = false) :
    ScalarLike pl P T = false := by
  cases T with
  | arith a cv =>
    exfalso
    rcases h with h | h | h | h | h <;>
      · simp only [binaryExprType, negateExprType, Option.some.injEq] at h
        subst h
        simp [convertible_to] at hr
  | declared n =>
    have hreq : requiresExpression pl P (.declared n) = false := by
      rcases h with h | h | h | h | h <;> simp [requiresExpression, h, compoundRequirement, hr]
    simp [ScalarLike, hreq, is_arithmetic_v, is_integral_v, is_floating_point_v]

/-- Witness of C5: operators on type 0 that return type 1, which does not
convert to type 0. -/
theorem not_ScalarLike_of_unconvertible_result_witness :
    binaryExprType lp64 unrelatedResultProgram .plus (.declared 0) (.declared 0)
        = some (.declared 1) ∧
      convertible_to unrelatedResultProgram (.declared 1) (.declared 0) = false ∧
      ScalarLike lp64 unrelatedResultProgram (.declared 0) = false :=
  ⟨rfl, rfl,
    not_ScalarLike_of_unconvertible_result lp64 unrelatedResultProgram (.declared 0)
      (.declared 1) (Or.inl rfl) rfl⟩

/-- C6: a type that satisfies `ScalarLike<T>` has all five expressions
well-formed with results convertible to `T`; every arithmetic type passes the
five-operator test by the built-in operators alone; hence `ScalarLike<T>` has
the value of the five-operator test. -/
theorem ScalarLike_eq_requiresExpression (pl : Platform) (P : Program) (T : CppType) :
    (ScalarLike pl P T = true → ClosedArithmetic pl P T) ∧
      (is_arithmetic_v T = true → requiresExpression pl P T = true) ∧
      ScalarLike pl P T = requiresExpression pl P T := by
  have harith := requiresExpression_of_is_arithmetic pl P T
  have heq : ScalarLike pl P T = requiresExpression pl P T := by
    unfold ScalarLike
    cases ha : is_arithmetic_v T
    · rfl
    · rw [harith ha]
      rfl
  refine ⟨?_, harith, heq⟩
  intro h
  rw [heq] at h
  exact (requiresExpression_iff pl P T).mp h

/-- Witness of C6 at `const short` on the 32-bit target, in a program that
declares no operator: the built-in operators yield `int`, which converts back. -/
theorem ScalarLike_eq_requiresExpression_witness :
    ScalarLike ilp32 aggregateProgram (.arith .short ⟨true, false⟩) = true ∧
      binaryExprType ilp32 aggregateProgram .plus (.arith .short ⟨true, false⟩)
        (.arith .short ⟨true, false⟩) = some intType ∧
      ClosedArithmetic ilp32 aggregateProgram (.arith .short ⟨true, false⟩) ∧
      requiresExpression ilp32 aggregateProgram (.arith .short ⟨true, false⟩) = true :=
  ⟨rfl, rfl,
    (ScalarLike_eq_requiresExpression ilp32 aggregateProgram (.arith .short ⟨true, false⟩)).1 rfl,
    (ScalarLike_eq_requiresExpression ilp32 aggregateProgram (.arith .short ⟨true, false⟩)).2.1
      rfl⟩

/-- C7: testing the five operators first and the arithmetic-type trait second
gives the same boolean as `ScalarLike<T>`, which tests in the other order. -/
theorem ScalarLikeStructuralFirst_eq_ScalarLike (pl : Platform) (P : Program) (T : CppType) :
    ScalarLikeStructuralFirst pl P T = ScalarLike pl P T := by
  unfold ScalarLikeStructuralFirst ScalarLike
  exact Bool.or_comm _ _

/-- C8: two types, in any two programs and on any two targets, that agree on
being arithmetic and on the well-formedness and result-convertibility of each of
the five same-type expressions receive the same classification; and the
classification of one type has one value only. -/
theorem ScalarLike_depends_on_static_interface (pl pl' : Platform) (P P' : Program)
    (T T' : CppType)
    (ha : is_arithmetic_v T = is_arithmetic_v T')
    (h₁ : requirementFacts P (binaryExprType pl P .plus T T) T
      = requirementFacts P' (binaryExprType pl' P' .plus T' T') T')
    (h₂ : requirementFacts P (binaryExprType pl P .minus T T) T
      = requirementFacts P' (binaryExprType pl' P' .minus T' T') T')
    (h₃ : requirementFacts P (binaryExprType pl P .times T T) T
      = requirementFacts P' (binaryExprType pl' P' .times T' T') T')
    (h₄ : requirementFacts P (binaryExprType pl P .divide T T) T
      = requirementFacts P' (binaryExprType pl' P' .divide T' T') T')
    (h₅ : requirementFacts P (negateExprType pl P T) T
      = requirementFacts P' (negateExprType pl' P' T') T') :
    ScalarLike pl P T = ScalarLike pl' P' T' ∧
      ∀ b₁ b₂ : Bool, ScalarLike pl P T = b₁ → ScalarLike pl P T = b₂ → b₁ = b₂ := by
  constructor
  · simp only [ScalarLike, requiresExpression, compoundRequirement_eq_facts, ha, h₁, h₂, h₃, h₄,
      h₅]
  · intro b₁ b₂ e₁ e₂
    rw [← e₁, ← e₂]

/-- Witness of C8: the dual-number type and the type whose operators return a
convertible expression node are classified alike. -/
theorem ScalarLike_depends_on_static_interface_witness :
    ScalarLike lp64 dualProgram (.declared 0) = ScalarLike ilp32 proxyProgram (.declared 0) :=
  (ScalarLike_depends_on_static_interface lp64 ilp32 dualProgram proxyProgram
    (.declared 0) (.declared 0) rfl rfl rfl rfl rfl rfl).1

/-- C9, counterexample to the claim as stated: the units `convertingUnit` and
`convertingMixedUnit` declare the same class, the same unary minus and the same
same-type operators, and differ only in the mixed-type operator
`C operator+(C&, double)`; with it `a + b` on two operands of type `C` is
ambiguous (the mixed overload binds `a` better, the same-type overload converts
`b` better), so the first unit classifies `C` as scalar-like and the second does
not. -/
theorem ScalarLike_changed_by_mixed_operator :
    convertingMixedUnit.classes = convertingUnit.classes ∧
      convertingMixedUnit.negate = convertingUnit.negate ∧
      convertingMixedUnit.binary.filter (fun d => !d.isMixed)
        = convertingUnit.binary.filter (fun d => !d.isMixed) ∧
      convertingMixedUnit.binary.filter (fun d => d.isMixed)
        = [⟨.plus, .cls .ref 0, .arith .double, .declared 0⟩] ∧
      convertingUnit.binary.filter (fun d => d.isMixed) = [] ∧
      binaryExprType lp64 (frontEnd lp64 convertingUnit) .plus (.declared 0) (.declared 0)
        = some (.declared 0) ∧
      binaryExprType lp64 (frontEnd lp64 convertingMixedUnit) .plus (.declared 0) (.declared 0)
        = none ∧
      ScalarLike lp64 (frontEnd lp64 convertingUnit) (.declared 0) = true ∧
      ScalarLike lp64 (frontEnd lp64 convertingMixedUnit) (.declared 0) = false := by
  refine ⟨rfl, rfl, ?_, ?_, ?_, ?_, ?_, ?_, ?_⟩ <;> decide

/-- C9, amended: `ScalarLike<T>` types only the five expressions whose operands
are both of type `T`.  (a) Two programs that type the same-type expressions, unary
minus and conversions alike classify `T` alike, whatever they say of mixed-type
expressions.  (b) Two units that differ only in their mixed-type operator
functions classify `T` alike provided none of these functions accepts two
operands of type `T`.  (c) A type whose five same-type expressions are closed and
that supports no mixed-type expression satisfies `ScalarLike<T>`. -/
theorem ScalarLike_mixed_operators (pl : Platform) (T : CppType) :
    (∀ P P' : Program, (∀ op U, P'.binary op U U = P.binary op U U) →
        P'.negate = P.negate → P'.convertible = P.convertible →
        ScalarLike pl P' T = ScalarLike pl P T) ∧
      (∀ D D' : TranslationUnit, D.classes = D'.classes → D.negate = D'.negate →
        D.binary.filter (fun d => !d.isMixed) = D'.binary.filter (fun d => !d.isMixed) →
        (∀ d ∈ D.binary ++ D'.binary, d.isMixed = true →
          d.viableFor pl D.classes T T = false) →
        ScalarLike pl (frontEnd pl D) T = ScalarLike pl (frontEnd pl D') T) ∧
      (∀ P : Program,
        (∀ op U, U ≠ T →
          binaryExprType pl P op T U = none ∧ binaryExprType pl P op U T = none) →
        ClosedArithmetic pl P T → ScalarLike pl P T = true) := by
  refine ⟨?_, ?_, ?_⟩
  · intro P P' hsame hneg hconv
    cases T with
    | arith a cv => simp [ScalarLike, (is_arithmetic_v_iff (.arith a cv)).mpr ⟨a, cv, rfl⟩]
    | declared n =>
      simp only [ScalarLike, requiresExpression, binaryExprType, negateExprType,
        compoundRequirement, convertible_to, hsame, hneg, hconv]
  · intro D D' hc hn hb hv
    exact ScalarLike_frontEnd_congr pl D D' T hc hn
      (fun op => binaryCandidates_eq_of_same_type_part pl D D' op T T hc hb hv)
  · intro P _ hclosed
    simp [ScalarLike, (requiresExpression_iff pl P T).mpr hclosed]

/-- Witness of C9 as amended, on the dual-number unit and the same unit with
`Dual operator*(const Dual&, double)` and `Dual operator*(double, const Dual&)`
added: the added functions make `Dual * int` well-formed, do not accept two
operands of type `Dual`, and leave the classification of `Dual` unchanged. -/
theorem ScalarLike_mixed_operators_witness :
    binaryExprType lp64 (frontEnd lp64 dualMixedUnit) .times (.declared 0) intType
        = some (.declared 0) ∧
      binaryExprType lp64 (frontEnd lp64 dualUnit) .times (.declared 0) intType = none ∧
      ScalarLike lp64 (frontEnd lp64 dualMixedUnit) (.declared 0)
        = ScalarLike lp64 (frontEnd lp64 dualUnit) (.declared 0) ∧
      ScalarLike ilp32 (frontEnd ilp32 dualMixedUnit) (.declared 0)
        = ScalarLike ilp32 (frontEnd ilp32 dualUnit) (.declared 0) ∧
      ScalarLike lp64 (frontEnd lp64 dualUnit) (.declared 0) = true :=
  ⟨by decide, by decide,
    (ScalarLike_mixed_operators lp64 (.declared 0)).1
      (frontEnd lp64 dualUnit) (frontEnd lp64 dualMixedUnit)
      (fun op U => congrArg bestViable
        (binaryCandidates_eq_of_same_type_part lp64 dualMixedUnit dualUnit op U U rfl
          (by decide) (dualMixedUnit_mixed_not_viable lp64 U)))
      rfl rfl,
    (ScalarLike_mixed_operators ilp32 (.declared 0)).2.1 dualMixedUnit dualUnit rfl rfl
      (by decide) (by decide),
    (ScalarLike_mixed_operators lp64 (.declared 0)).2.2 (frontEnd lp64 dualUnit)
      (fun op U hU => dualUnit_no_mixed_expression lp64 op U hU)
      ⟨⟨.declared 0, rfl, rfl⟩, ⟨.declared 0, rfl, rfl⟩, ⟨.declared 0, rfl, rfl⟩,
        ⟨.declared 0, rfl, rfl⟩, ⟨.declared 0, rfl, rfl⟩⟩⟩

end matrix
